import Mathlib

/-!
Shallow embedding of `class_based_views/list.py` (ListView and
PaginatedListView) together with the Django framework primitives the file
uses (`django.core.paginator.Paginator`, `django.utils.encoding.smart_str`)
and the pieces of the base class `class_based_views.base.TemplateView`
that the file delegates to.

Python methods are modelled in state-passing style: a view instance is a
record of its configuration attributes, and each method takes the instance
state and returns its value together with the (possibly updated) state.
Exceptions are modelled with `Except`.
-/

/-- Exceptions that can be raised along the modelled code paths. -/
inductive PyExc where
  | improperlyConfigured (msg : String)
  | http404 (msg : String)
  | typeError
  | zeroDivisionError
  | invalidPage
deriving Repr, DecidableEq

/-- The `_meta` metadata of a Django model: used by
`get_template_names` (`app_label`, `object_name`) and by
`get_template_object_name` (`verbose_name_plural`). -/
structure Meta where
  app_label : String
  object_name : String
  verbose_name_plural : String
deriving Repr, DecidableEq

/-- A Python iterable handed to the view.  `elems` is the underlying
sequence of objects; `model` is `some m` exactly when
`hasattr(items, 'model')` holds (the queryset case, with `items.model._meta = m`);
`hasClone` is `hasattr(items, '_clone')`. -/
structure PyItems (α : Type) where
  elems : List α
  model : Option Meta
  hasClone : Bool
deriving Repr, DecidableEq

/-- Django framework primitive `QuerySet._clone()`: builds a fresh queryset
carrying the same query, hence the same elements, model and attributes. -/
def PyItems.clone (it : PyItems α) : PyItems α :=
  { elems := it.elems, model := it.model, hasClone := it.hasClone }

/-- Python slicing `items[b:t]` (with `0 ≤ b`, `t` clamped to the length).
Slicing a queryset yields a queryset and slicing a list yields a list, so
the `model` and `hasClone` attributes are preserved. -/
def PyItems.slice (it : PyItems α) (b t : Nat) : PyItems α :=
  { it with elems := (it.elems.drop b).take (t - b) }

/-- Django framework primitive `django.utils.encoding.smart_str`: on the
plain strings modelled here it returns the string itself. -/
def smart_str (s : String) : String := s

/-- Python `str.lower()`, character by character (Django model object names
are ASCII identifiers). -/
def pyLower (s : String) : String := ⟨s.data.map Char.toLower⟩

/-- Django framework primitive `django.core.paginator.Paginator`
(constructed by the view with `orphans = 0`). -/
structure PaginatorObj (α : Type) where
  object_list : PyItems α
  per_page : Option Nat
  allow_empty_first_page : Bool
deriving Repr, DecidableEq

/-- `Paginator.count`: the number of objects. -/
def PaginatorObj.count (p : PaginatorObj α) : Nat :=
  p.object_list.elems.length

/-- `Paginator.num_pages` with `orphans = 0`: `0` for an empty list when
empty first pages are not allowed, otherwise `ceil(max(1, count) / per_page)`.
A `per_page` of `None` raises `TypeError` (from `float(None)`) and a
`per_page` of `0` raises `ZeroDivisionError`. -/
def PaginatorObj.num_pages (p : PaginatorObj α) : Except PyExc Nat :=
  if p.count == 0 && !p.allow_empty_first_page then .ok 0
  else
    match p.per_page with
    | none => .error .typeError
    | some 0 => .error .zeroDivisionError
    | some k => .ok ((max 1 p.count + k - 1) / k)

/-- `Paginator.validate_number` on an `int` argument: numbers below `1` raise
`EmptyPage`, numbers above `num_pages` raise `EmptyPage` unless the number is
`1` and empty first pages are allowed.  Both exceptions are subclasses of
`InvalidPage`, modelled as `PyExc.invalidPage`. -/
def PaginatorObj.validate_number (p : PaginatorObj α) (number : Int) : Except PyExc Int :=
  if number < 1 then .error .invalidPage
  else
    match p.num_pages with
    | .error e => .error e
    | .ok np =>
      if (np : Int) < number then
        if number == 1 && p.allow_empty_first_page then .ok number
        else .error .invalidPage
      else .ok number

/-- A `django.core.paginator.Page` object: the slice of objects, the
validated 1-based page number, and the paginator that produced it. -/
structure PageObj (α : Type) where
  object_list : PyItems α
  number : Int
  paginator : PaginatorObj α
deriving Repr, DecidableEq

/-- `Paginator.page` with `orphans = 0`: validates the number `n`, then
returns the slice `object_list[(n-1)*per_page : n*per_page]` with the upper
bound clamped to `count`. -/
def PaginatorObj.page (p : PaginatorObj α) (number : Int) : Except PyExc (PageObj α) :=
  match p.validate_number number with
  | .error e => .error e
  | .ok n =>
    match p.per_page with
    | none => .error .typeError
    | some k =>
      let bottom := (n.toNat - 1) * k
      let top0 := bottom + k
      let top := if p.count ≤ top0 then p.count else top0
      .ok ⟨p.object_list.slice bottom top, n, p⟩

/-- Values stored in a template context dictionary. -/
inductive CtxVal (α : Type) where
  | items (xs : PyItems α)
  | pag (p : Option (PaginatorObj α))
  | page (pg : PageObj α)
  | bool (b : Bool)
deriving Repr, DecidableEq

/-- Python `dict` assignment `d[k] = v`: replace the binding when the key is
present, append it otherwise. -/
def dinsert (d : List (String × CtxVal α)) (k : String) (v : CtxVal α) :
    List (String × CtxVal α) :=
  if d.any (fun p => p.1 = k) then
    d.map (fun p => if p.1 = k then (k, v) else p)
  else d ++ [(k, v)]

/-- Python `dict` lookup `d.get(k)`. -/
def dget (d : List (String × CtxVal α)) (k : String) : Option (CtxVal α) :=
  (d.find? (fun p => p.1 = k)).map (fun p => p.2)

/-- Modelled from the spec: the base class `class_based_views.base.TemplateView`
(not under `src/`) resolves template names and delegates rendering to the
framework's template renderer; a response is only ever produced by that
delegation, carrying the resolved template-name list and the context. -/
inductive Response (α : Type) where
  | rendered (names : List String) (context : List (String × CtxVal α))
deriving Repr, DecidableEq

/-- The configuration attributes of a `ListView` instance.
`base_template_names` — Modelled from the spec: the value returned by the
superclass `TemplateView.get_template_names()` (defined in
`class_based_views/base.py`, which is not under `src/`), i.e. the
user-configured template-name list.  `className` models
`self.__class__.__name__`, used in exception messages. -/
structure ListViewState (α : Type) where
  allow_empty : Bool := true
  template_object_name : Option String := none
  queryset : Option (PyItems α) := none
  items : Option (PyItems α) := none
  base_template_names : List String := []
  className : String := "ListView"
deriving Repr, DecidableEq

/-- `ListView.get_allow_empty`. -/
def ListView.get_allow_empty (st : ListViewState α) : Bool × ListViewState α :=
  (st.allow_empty, st)

/-- `ListView.get_items`: raise `ImproperlyConfigured` when `self.items` is
`None`, otherwise return `self.items._clone()` when the items object has a
`_clone` attribute and `self.items` itself otherwise. -/
def ListView.get_items (st : ListViewState α) :
    Except PyExc (PyItems α) × ListViewState α :=
  match st.items with
  | none => (.error (.improperlyConfigured (st.className ++ " must define items")), st)
  | some its =>
    if its.hasClone then (.ok its.clone, st) else (.ok its, st)

/-- `ListView.get_template_names`: the superclass list, with
`"<app_label>/<lowercased object_name>_<suffix>.html"` appended when the
items object has a `model` attribute. -/
def ListView.get_template_names (st : ListViewState α) (items : PyItems α)
    (suffix : String) : List String × ListViewState α :=
  let names := st.base_template_names
  match items.model with
  | some m =>
    (names ++ [m.app_label ++ "/" ++ pyLower m.object_name ++ "_" ++ suffix ++ ".html"], st)
  | none => (names, st)

/-- `ListView.get_template_object_name`: `template_object_name + '_list'`
when `self.template_object_name` is truthy, else `smart_str` of the model's
`verbose_name_plural` when the items object has a `model` attribute, else
`None`. -/
def ListView.get_template_object_name (st : ListViewState α) (items : PyItems α) :
    Option String × ListViewState α :=
  match st.template_object_name with
  | some s =>
    if s == "" then
      match items.model with
      | some m => (some (smart_str m.verbose_name_plural), st)
      | none => (none, st)
    else (some (s ++ "_list"), st)
  | none =>
    match items.model with
    | some m => (some (smart_str m.verbose_name_plural), st)
    | none => (none, st)

/-- `ListView.get_context`: `{'object_list': items}`, with `items` also bound
under the template object name when that name is not `None`. -/
def ListView.get_context (st : ListViewState α) (items : PyItems α) :
    List (String × CtxVal α) × ListViewState α :=
  let context : List (String × CtxVal α) := [("object_list", .items items)]
  match ListView.get_template_object_name st items with
  | (some k, st1) => (dinsert context k (.items items), st1)
  | (none, st1) => (context, st1)

/-- `ListView.GET`: fetch the items, raise `Http404` when empty lists are not
allowed and the list is empty, otherwise render the resolved template names
with the context. -/
def ListView.GETrun (st : ListViewState α) :
    Except PyExc (Response α) × ListViewState α :=
  match ListView.get_items st with
  | (.error e, st1) => (.error e, st1)
  | (.ok items, st1) =>
    let (allow, st2) := ListView.get_allow_empty st1
    if !allow && items.elems.length == 0 then
      (.error (.http404 ("Empty list and " ++ st2.className ++ ".allow_empty is False.")), st2)
    else
      let (context, st3) := ListView.get_context st2 items
      let (names, st4) := ListView.get_template_names st3 items "list"
      (.ok (.rendered names context), st4)

/-- The page token found in `self.kwargs['page']` or in the request's GET
query string: URL keyword arguments and query parameters are strings, while
the hard-coded default is the `int` `1`. -/
inductive PageTok where
  | str (s : String)
  | int (n : Int)
deriving Repr, DecidableEq

/-- Python truthiness of a page token: `None` aside, the falsy values that
can appear here are the empty string and the integer `0`. -/
def PageTok.truthy : PageTok → Bool
  | .str s => !(s == "")
  | .int n => !(n == 0)

/-- Helper for `int(str)`: a non-empty all-digit character list parsed as a
natural number. -/
def digitsToNat : List Char → Option Nat
  | [] => none
  | cs =>
    if cs.all Char.isDigit then
      some (cs.foldl (fun n c => n * 10 + (c.toNat - 48)) 0)
    else none

/-- Python `int(s)` on a string: surrounding whitespace is stripped and an
optional sign precedes the digits; anything else raises `ValueError`
(modelled as `none`). -/
def pyStrToInt (s : String) : Option Int :=
  match ((s.data.dropWhile Char.isWhitespace).reverse.dropWhile Char.isWhitespace).reverse with
  | '-' :: cs => (digitsToNat cs).map (fun n => -(n : Int))
  | '+' :: cs => (digitsToNat cs).map (fun n => (n : Int))
  | cs => (digitsToNat cs).map (fun n => (n : Int))

/-- Python `int(page)` on a page token; an `int` token converts to itself. -/
def PageTok.toInt : PageTok → Option Int
  | .str s => pyStrToInt s
  | .int n => some n

/-- The comparison `page == 'last'` reached after `int(page)` raised
`ValueError` (so only string tokens can reach it). -/
def PageTok.isLastStr : PageTok → Bool
  | .str s => s == "last"
  | .int _ => false

/-- The configuration attributes of a `PaginatedListView` instance:
the inherited `ListView` attributes, `paginate_by`, plus the request data the
methods read — `kwargsPage` models `self.kwargs.get('page', None)` and
`reqGetPage` models the `'page'` entry of `self.request.GET`. -/
structure PaginatedListViewState (α : Type) extends ListViewState α where
  paginate_by : Option Nat := none
  kwargsPage : Option PageTok := none
  reqGetPage : Option String := none
deriving Repr, DecidableEq

/-- `PaginatedListView.get_paginate_by`. -/
def PaginatedListView.get_paginate_by (st : PaginatedListViewState α)
    (_items : PyItems α) : Option Nat × PaginatedListViewState α :=
  (st.paginate_by, st)

/-- `self.request.GET.get('page', 1)`: the query parameter when present,
the `int` `1` otherwise. -/
def PaginatedListView.requestPageDefault (st : PaginatedListViewState α) : PageTok :=
  match st.reqGetPage with
  | some s => .str s
  | none => .int 1

/-- The `Paginator` object constructed by `paginate_items`:
`Paginator(items, self.get_paginate_by(items),
allow_empty_first_page=self.get_allow_empty())`. -/
def viewPaginator (st : PaginatedListViewState α) (items : PyItems α) : PaginatorObj α :=
  { object_list := items, per_page := st.paginate_by,
    allow_empty_first_page := st.allow_empty }

/-- `PaginatedListView.paginate_items`: build a `Paginator` from the items,
`get_paginate_by` and `get_allow_empty`; resolve the page token with
`page or self.request.GET.get('page', 1)`; convert it with `int(...)`,
treating `'last'` as `num_pages` and raising `Http404` otherwise; then
delegate to `paginator.page`, turning `InvalidPage` into `Http404`. -/
def PaginatedListView.paginate_items (st : PaginatedListViewState α)
    (items : PyItems α) (page : Option PageTok) :
    Except PyExc (Option (PaginatorObj α) × PageObj α × PyItems α) ×
      PaginatedListViewState α :=
  let (paginate_by, st1) := PaginatedListView.get_paginate_by st items
  let (allow, lst) := ListView.get_allow_empty st1.toListViewState
  let st2 := { st1 with toListViewState := lst }
  let paginator : PaginatorObj α :=
    { object_list := items, per_page := paginate_by, allow_empty_first_page := allow }
  let page1 : PageTok :=
    match page with
    | some t => if t.truthy then t else PaginatedListView.requestPageDefault st2
    | none => PaginatedListView.requestPageDefault st2
  let pageNumber : Except PyExc Int :=
    match page1.toInt with
    | some n => .ok n
    | none =>
      if page1.isLastStr then
        match paginator.num_pages with
        | .ok np => .ok (np : Int)
        | .error e => .error e
      else .error (.http404 "Page is not last, nor can it be converted to an int.")
  match pageNumber with
  | .error e => (.error e, st2)
  | .ok n =>
    match paginator.page n with
    | .ok pg => (.ok (some paginator, pg, pg.object_list), st2)
    | .error .invalidPage =>
      (.error (.http404 ("Invalid page (" ++ toString n ++ ")")), st2)
    | .error e => (.error e, st2)

/-- `PaginatedListView.get_context`: paginate the items with the page token
from `self.kwargs`, compute the `ListView` context over the page's object
list, and update it with `paginator`, `page_obj` and
`is_paginated = (paginator is not None)`. -/
def PaginatedListView.get_context (st : PaginatedListViewState α)
    (items : PyItems α) :
    Except PyExc (List (String × CtxVal α)) × PaginatedListViewState α :=
  let page := st.kwargsPage
  match PaginatedListView.paginate_items st items page with
  | (.error e, st1) => (.error e, st1)
  | (.ok (paginator, pg, items2), st1) =>
    let (context, lst) := ListView.get_context st1.toListViewState items2
    let st2 := { st1 with toListViewState := lst }
    (.ok (dinsert (dinsert (dinsert context "paginator" (.pag paginator))
        "page_obj" (.page pg)) "is_paginated" (.bool paginator.isSome)), st2)

/-- `PaginatedListView.GET`: the inherited `ListView.GET` body, dispatching
to the overridden `get_context` (which can raise `Http404`); the template
names are still resolved from the full item collection. -/
def PaginatedListView.GETrun (st : PaginatedListViewState α) :
    Except PyExc (Response α) × PaginatedListViewState α :=
  match ListView.get_items st.toListViewState with
  | (.error e, lst) => (.error e, { st with toListViewState := lst })
  | (.ok items, lst) =>
    let st1 := { st with toListViewState := lst }
    let (allow, lst2) := ListView.get_allow_empty st1.toListViewState
    let st2 := { st1 with toListViewState := lst2 }
    if !allow && items.elems.length == 0 then
      (.error (.http404 ("Empty list and " ++ st2.className ++ ".allow_empty is False.")), st2)
    else
      match PaginatedListView.get_context st2 items with
      | (.error e, st3) => (.error e, st3)
      | (.ok context, st3) =>
        let (names, lst4) := ListView.get_template_names st3.toListViewState items "list"
        (.ok (.rendered names context), { st3 with toListViewState := lst4 })

/-! Lemmas about the dictionary operations. -/

theorem find_repl_self (k : String) (v : CtxVal α) (d : List (String × CtxVal α))
    (h : d.any (fun p => p.1 = k) = true) :
    (d.map (fun p => if p.1 = k then (k, v) else p)).find? (fun p => decide (p.1 = k))
      = some (k, v) := by
  induction d with
  | nil => simp at h
  | cons p d ih =>
    simp only [List.map_cons]
    by_cases hp : p.1 = k
    · rw [if_pos hp, List.find?_cons_of_pos _ (by simp)]
    · rw [if_neg hp, List.find?_cons_of_neg _ (by simp [hp])]
      apply ih
      simpa [hp] using h

theorem find_repl_ne (k k' : String) (v : CtxVal α) (hne : k' ≠ k)
    (d : List (String × CtxVal α)) :
    (d.map (fun p => if p.1 = k then (k, v) else p)).find? (fun p => decide (p.1 = k'))
      = d.find? (fun p => decide (p.1 = k')) := by
  induction d with
  | nil => rfl
  | cons p d ih =>
    simp only [List.map_cons]
    by_cases hp : p.1 = k
    · have h1 : decide ((p.1 : String) = k') = false :=
        decide_eq_false (fun h => hne (hp.symm.trans h).symm)
      rw [if_pos hp, List.find?_cons_of_neg _ (by simp; exact fun h => hne h.symm),
        List.find?_cons_of_neg _ (by simp; exact of_decide_eq_false h1)]
      exact ih
    · by_cases hp' : p.1 = k'
      · rw [if_neg hp, List.find?_cons_of_pos _ (by simp [hp']),
          List.find?_cons_of_pos _ (by simp [hp'])]
      · rw [if_neg hp, List.find?_cons_of_neg _ (by simp [hp']),
          List.find?_cons_of_neg _ (by simp [hp'])]
        exact ih

theorem find_append_single (k : String) (v : CtxVal α) (d : List (String × CtxVal α))
    (h : d.any (fun p => p.1 = k) = false) :
    (d ++ [(k, v)]).find? (fun p => decide (p.1 = k)) = some (k, v) := by
  induction d with
  | nil => simp [List.find?_cons_of_pos]
  | cons p d ih =>
    simp only [List.any_cons, Bool.or_eq_false_iff] at h
    rw [List.cons_append, List.find?_cons_of_neg _ (by simp [of_decide_eq_false h.1])]
    exact ih h.2

theorem find_append_single_ne (k k' : String) (v : CtxVal α) (hne : k' ≠ k)
    (d : List (String × CtxVal α)) :
    (d ++ [(k, v)]).find? (fun p => decide (p.1 = k'))
      = d.find? (fun p => decide (p.1 = k')) := by
  induction d with
  | nil => simp [List.find?, decide_eq_false (fun h : (k : String) = k' => hne h.symm)]
  | cons p d ih =>
    by_cases hp : p.1 = k'
    · rw [List.cons_append, List.find?_cons_of_pos _ (by simp [hp]),
        List.find?_cons_of_pos _ (by simp [hp])]
    · rw [List.cons_append, List.find?_cons_of_neg _ (by simp [hp]),
        List.find?_cons_of_neg _ (by simp [hp])]
      exact ih

theorem dget_dinsert_self (d : List (String × CtxVal α)) (k : String) (v : CtxVal α) :
    dget (dinsert d k v) k = some v := by
  unfold dget dinsert
  by_cases h : d.any (fun p => p.1 = k) = true
  · rw [if_pos h, find_repl_self k v d h]
    rfl
  · rw [if_neg h, find_append_single k v d (by revert h; cases d.any (fun p => p.1 = k) <;> simp)]
    rfl

theorem dget_dinsert_ne (d : List (String × CtxVal α)) (k k' : String) (v : CtxVal α)
    (hne : k' ≠ k) : dget (dinsert d k v) k' = dget d k' := by
  unfold dget dinsert
  by_cases h : d.any (fun p => p.1 = k) = true
  · rw [if_pos h, find_repl_ne k k' v hne d]
  · rw [if_neg h, find_append_single_ne k k' v hne d]

theorem dinsert_append_of_all_ne (d : List (String × CtxVal α)) (k : String) (v : CtxVal α)
    (h : d.all (fun p => p.1 ≠ k) = true) : dinsert d k v = d ++ [(k, v)] := by
  unfold dinsert
  rw [if_neg]
  simp only [List.all_eq_true, decide_eq_true_eq] at h
  simp only [List.any_eq_true, decide_eq_true_eq, not_exists, not_and]
  exact fun p hp => h p hp

/-! State-preservation lemmas: none of the modelled methods assigns to any
instance attribute, so each returns the state it was given. -/

theorem get_items_snd (st : ListViewState α) : (ListView.get_items st).2 = st := by
  unfold ListView.get_items
  cases st.items with
  | none => rfl
  | some its => by_cases h : its.hasClone <;> simp [h]

theorem get_template_object_name_snd (st : ListViewState α) (items : PyItems α) :
    (ListView.get_template_object_name st items).2 = st := by
  unfold ListView.get_template_object_name
  repeat' split
  all_goals rfl

theorem get_context_snd (st : ListViewState α) (items : PyItems α) :
    (ListView.get_context st items).2 = st := by
  unfold ListView.get_context
  have h := get_template_object_name_snd st items
  rcases hm : ListView.get_template_object_name st items with ⟨v, st'⟩
  rw [hm] at h
  cases v <;> simpa using h

theorem get_template_names_snd (st : ListViewState α) (items : PyItems α) (suffix : String) :
    (ListView.get_template_names st items suffix).2 = st := by
  unfold ListView.get_template_names
  cases items.model <;> rfl

theorem paginate_items_snd (st : PaginatedListViewState α) (items : PyItems α)
    (page : Option PageTok) :
    (PaginatedListView.paginate_items st items page).2 = st := by
  dsimp only [PaginatedListView.paginate_items, PaginatedListView.get_paginate_by,
    ListView.get_allow_empty]
  repeat' split
  all_goals rfl

theorem get_items_eta (st : ListViewState α) :
    ListView.get_items st = ((ListView.get_items st).1, st) :=
  Prod.ext rfl (get_items_snd st)

theorem get_context_eta (st : ListViewState α) (items : PyItems α) :
    ListView.get_context st items = ((ListView.get_context st items).1, st) :=
  Prod.ext rfl (get_context_snd st items)

theorem get_template_names_eta (st : ListViewState α) (items : PyItems α) (suffix : String) :
    ListView.get_template_names st items suffix
      = ((ListView.get_template_names st items suffix).1, st) :=
  Prod.ext rfl (get_template_names_snd st items suffix)

theorem get_template_object_name_eta (st : ListViewState α) (items : PyItems α) :
    ListView.get_template_object_name st items
      = ((ListView.get_template_object_name st items).1, st) :=
  Prod.ext rfl (get_template_object_name_snd st items)

theorem paginate_items_eta (st : PaginatedListViewState α) (items : PyItems α)
    (page : Option PageTok) :
    PaginatedListView.paginate_items st items page
      = ((PaginatedListView.paginate_items st items page).1, st) :=
  Prod.ext rfl (paginate_items_snd st items page)

theorem pag_get_context_snd (st : PaginatedListViewState α) (items : PyItems α) :
    (PaginatedListView.get_context st items).2 = st := by
  dsimp only [PaginatedListView.get_context]
  rw [paginate_items_eta]
  cases hv : (PaginatedListView.paginate_items st items st.kwargsPage).1 with
  | error e => rfl
  | ok tr =>
    rcases tr with ⟨pag, pg, its2⟩
    dsimp only
    rw [get_context_snd]

theorem pag_get_context_eta (st : PaginatedListViewState α) (items : PyItems α) :
    PaginatedListView.get_context st items
      = ((PaginatedListView.get_context st items).1, st) :=
  Prod.ext rfl (pag_get_context_snd st items)

theorem get_items_fst_some (st : ListViewState α) (its : PyItems α)
    (h : st.items = some its) :
    (ListView.get_items st).1 = .ok (if its.hasClone then its.clone else its) := by
  unfold ListView.get_items
  rw [h]
  by_cases hc : its.hasClone <;> simp [hc]

/-- C7: for every `ListView` whose `items` attribute is not `None`,
`get_items` returns `self.items._clone()` whenever the items object has a
`_clone` attribute (the queryset case) and `self.items` itself otherwise,
and the stored instance state — `self.items` included — is left unchanged. -/
theorem C7_get_items_clones (st : ListViewState α) (its : PyItems α)
    (h : st.items = some its) :
    (ListView.get_items st).1 = .ok (if its.hasClone then its.clone else its) ∧
    (ListView.get_items st).2 = st :=
  ⟨get_items_fst_some st its h, get_items_snd st⟩

/-- Witness for C7 on a concrete cloneable items object. -/
theorem C7_witness :
    (ListView.get_items ({ items := some ⟨[1, 2], none, true⟩ } : ListViewState Nat)).1
        = .ok (if (⟨[1, 2], none, true⟩ : PyItems Nat).hasClone
            then (⟨[1, 2], none, true⟩ : PyItems Nat).clone
            else (⟨[1, 2], none, true⟩ : PyItems Nat)) ∧
    (ListView.get_items ({ items := some ⟨[1, 2], none, true⟩ } : ListViewState Nat)).2
        = { items := some ⟨[1, 2], none, true⟩ } :=
  C7_get_items_clones _ _ rfl

/-- C5: `get_template_names` returns the superclass template-name list
unchanged when the items object has no `model` attribute, and otherwise that
same list with exactly one extra name appended at the end, of the form
`<app_label>/<lowercased object name>_list.html`, so user-supplied names
precede the generated one. -/
theorem C5_get_template_names_spec (st : ListViewState α) (items : PyItems α) :
    (items.model = none →
      ListView.get_template_names st items "list" = (st.base_template_names, st)) ∧
    (∀ m, items.model = some m →
      ListView.get_template_names st items "list"
        = (st.base_template_names
            ++ [m.app_label ++ "/" ++ pyLower m.object_name ++ "_list.html"], st)) := by
  constructor
  · intro h
    unfold ListView.get_template_names
    rw [h]
  · intro m h
    unfold ListView.get_template_names
    rw [h]
    simp [String.append_assoc]

/-- Witness for C5: a model-less collection keeps the base names, and a
model-backed collection gets one generated name appended. -/
theorem C5_witness :
    ListView.get_template_names
        ({ base_template_names := ["user.html"] } : ListViewState Nat)
        ⟨[7], none, false⟩ "list"
      = (["user.html"], { base_template_names := ["user.html"] }) ∧
    ListView.get_template_names
        ({ base_template_names := ["user.html"] } : ListViewState Nat)
        ⟨[7], some ⟨"app", "Thing", "things"⟩, true⟩ "list"
      = (["user.html", "app/thing_list.html"], { base_template_names := ["user.html"] }) := by
  constructor
  · exact (C5_get_template_names_spec _ _).1 rfl
  · exact ((C5_get_template_names_spec
        ({ base_template_names := ["user.html"] } : ListViewState Nat)
        ⟨[7], some ⟨"app", "Thing", "things"⟩, true⟩).2
      ⟨"app", "Thing", "things"⟩ rfl).trans (by decide)

/-- C4: `ListView.GET` raises `ImproperlyConfigured` (via `get_items`) for
every instance whose `items` attribute is `None`, and raises `Http404` for
every instance whose `allow_empty` is `False` and whose retrieved item list
is empty; in both failure cases the result is the error alone — no template
names are resolved and no response is rendered. -/
theorem C4_GET_error_paths (st : ListViewState α) :
    (st.items = none →
      ListView.GETrun st
        = (.error (.improperlyConfigured (st.className ++ " must define items")), st)) ∧
    (∀ its, st.items = some its → st.allow_empty = false → its.elems.length = 0 →
      ListView.GETrun st
        = (.error (.http404
            ("Empty list and " ++ st.className ++ ".allow_empty is False.")), st)) := by
  constructor
  · intro h
    unfold ListView.GETrun ListView.get_items
    rw [h]
  · intro its h ha hl
    unfold ListView.GETrun
    rw [get_items_eta, get_items_fst_some st its h]
    have hlen : (if its.hasClone then its.clone else its).elems.length = 0 := by
      by_cases hc : its.hasClone <;> simp [hc, PyItems.clone, hl]
    dsimp only [ListView.get_allow_empty]
    rw [ha, hlen]
    simp

/-- Witness for C4: both failure paths at concrete instances. -/
theorem C4_witness :
    ListView.GETrun ({ } : ListViewState Nat)
      = (.error (.improperlyConfigured ("ListView" ++ " must define items")), { }) ∧
    ListView.GETrun
        ({ items := some ⟨[], none, false⟩, allow_empty := false } : ListViewState Nat)
      = (.error (.http404 ("Empty list and " ++ "ListView" ++ ".allow_empty is False.")),
        { items := some ⟨[], none, false⟩, allow_empty := false }) := by
  constructor
  · exact (C4_GET_error_paths _).1 rfl
  · exact (C4_GET_error_paths _).2 ⟨[], none, false⟩ rfl rfl rfl

/-- C10: no `GET` request mutates the view configuration: both
`ListView.GET` and `PaginatedListView.GET` return (normally or with a
raised exception) leaving every instance attribute — `items`, `queryset`,
`allow_empty`, `template_object_name`, `paginate_by`, and the rest of the
state — exactly as it was, and the state holds no cached list, paginator or
rendered result. -/
theorem C10_GET_preserves_attributes {α : Type} :
    (∀ st : ListViewState α, (ListView.GETrun st).2 = st) ∧
    (∀ st : PaginatedListViewState α, (PaginatedListView.GETrun st).2 = st) := by
  constructor
  · intro st
    unfold ListView.GETrun
    rw [get_items_eta]
    cases hv : (ListView.get_items st).1 with
    | error e => rfl
    | ok items =>
      dsimp only [ListView.get_allow_empty]
      split
      · rfl
      · rw [get_context_eta, get_template_names_eta]
  · intro st
    unfold PaginatedListView.GETrun
    rw [get_items_eta]
    cases hv : (ListView.get_items st.toListViewState).1 with
    | error e => rfl
    | ok items =>
      dsimp only [ListView.get_allow_empty]
      split
      · rfl
      · rw [pag_get_context_eta]
        cases hc : (PaginatedListView.get_context _ items).1 with
        | error e => rfl
        | ok context =>
          dsimp only
          rw [get_template_names_snd]

/-- C1: for every `ListView` whose `items` attribute is not `None` and for
which `allow_empty` is true or the retrieved list is non-empty, `GET` returns
exactly `render_to_response(get_template_names(items), context)` — the
response produced by delegating to the framework renderer — where `items` is
the value produced by `get_items` and the context maps `'object_list'` to
`items`. -/
theorem C1_GET_delegates_to_renderer (st : ListViewState α) (its2 : PyItems α)
    (hid : (ListView.get_items st).1 = .ok its2)
    (hok : st.allow_empty = true ∨ its2.elems.length ≠ 0) :
    ListView.GETrun st
      = (.ok (.rendered (ListView.get_template_names st its2 "list").1
          (ListView.get_context st its2).1), st) ∧
    dget (ListView.get_context st its2).1 "object_list" = some (.items its2) := by
  constructor
  · unfold ListView.GETrun
    rw [get_items_eta, hid]
    dsimp only [ListView.get_allow_empty]
    have hcond : (!st.allow_empty && its2.elems.length == 0) = false := by
      rcases hok with h | h
      · simp [h]
      · simp [h]
    rw [hcond]
    rw [get_context_snd, get_template_names_snd]
    simp
  · unfold ListView.get_context
    rw [get_template_object_name_eta]
    cases ht : (ListView.get_template_object_name st its2).1 with
    | none => rfl
    | some k =>
      dsimp only
      by_cases hk : k = "object_list"
      · subst hk
        rw [dget_dinsert_self]
      · rw [dget_dinsert_ne _ _ _ _ (fun hh => hk hh.symm)]
        rfl

/-- Witness for C1 on a concrete queryset-backed view. -/
theorem C1_witness :
    ListView.GETrun
        ({ items := some ⟨[5], some ⟨"app", "Thing", "things"⟩, true⟩,
           base_template_names := ["t.html"] } : ListViewState Nat)
      = (.ok (.rendered
          (ListView.get_template_names
            ({ items := some ⟨[5], some ⟨"app", "Thing", "things"⟩, true⟩,
               base_template_names := ["t.html"] } : ListViewState Nat)
            ⟨[5], some ⟨"app", "Thing", "things"⟩, true⟩ "list").1
          (ListView.get_context
            ({ items := some ⟨[5], some ⟨"app", "Thing", "things"⟩, true⟩,
               base_template_names := ["t.html"] } : ListViewState Nat)
            ⟨[5], some ⟨"app", "Thing", "things"⟩, true⟩).1),
        { items := some ⟨[5], some ⟨"app", "Thing", "things"⟩, true⟩,
          base_template_names := ["t.html"] }) ∧
    dget (ListView.get_context
        ({ items := some ⟨[5], some ⟨"app", "Thing", "things"⟩, true⟩,
           base_template_names := ["t.html"] } : ListViewState Nat)
        ⟨[5], some ⟨"app", "Thing", "things"⟩, true⟩).1 "object_list"
      = some (.items ⟨[5], some ⟨"app", "Thing", "things"⟩, true⟩) :=
  C1_GET_delegates_to_renderer _ _ rfl (Or.inl rfl)

/-- C8: `get_template_object_name` returns `template_object_name + '_list'`
whenever `template_object_name` is truthy; otherwise `smart_str` of the
model's `verbose_name_plural` when the items object has a `model` attribute;
otherwise `None`.  `get_context` binds the items under that extra key exactly
when the result is not `None`, and contains only `'object_list'` when it is
`None`. -/
theorem C8_template_object_name_context (st : ListViewState α) (items : PyItems α) :
    (∀ s, st.template_object_name = some s → s ≠ "" →
      (ListView.get_template_object_name st items).1 = some (s ++ "_list")) ∧
    ((st.template_object_name = none ∨ st.template_object_name = some "") →
      (∀ m, items.model = some m →
        (ListView.get_template_object_name st items).1
          = some (smart_str m.verbose_name_plural)) ∧
      (items.model = none → (ListView.get_template_object_name st items).1 = none)) ∧
    (∀ k, (ListView.get_template_object_name st items).1 = some k →
      dget (ListView.get_context st items).1 k = some (.items items) ∧
      dget (ListView.get_context st items).1 "object_list" = some (.items items)) ∧
    ((ListView.get_template_object_name st items).1 = none →
      (ListView.get_context st items).1 = [("object_list", .items items)]) := by
  refine ⟨?_, ?_, ?_, ?_⟩
  · intro s h hs
    unfold ListView.get_template_object_name
    rw [h]
    dsimp only
    rw [if_neg (by simp [hs])]
  · intro h
    constructor
    · intro m hm
      unfold ListView.get_template_object_name
      rcases h with h | h <;> rw [h] <;> simp [hm]
    · intro hm
      unfold ListView.get_template_object_name
      rcases h with h | h <;> rw [h] <;> simp [hm]
  · intro k hk
    unfold ListView.get_context
    rw [get_template_object_name_eta, hk]
    dsimp only
    constructor
    · rw [dget_dinsert_self]
    · by_cases hko : k = "object_list"
      · subst hko
        rw [dget_dinsert_self]
      · rw [dget_dinsert_ne _ _ _ _ (fun hh => hko hh.symm)]
        rfl
  · intro hk
    unfold ListView.get_context
    rw [get_template_object_name_eta, hk]

/-- Witness for C8: all four branches at concrete inputs. -/
theorem C8_witness :
    (ListView.get_template_object_name
        ({ template_object_name := some "thing" } : ListViewState Nat)
        ⟨[1], none, false⟩).1 = some ("thing" ++ "_list") ∧
    (ListView.get_template_object_name ({ } : ListViewState Nat)
        ⟨[1], some ⟨"app", "Thing", "things"⟩, false⟩).1
      = some (smart_str "things") ∧
    (ListView.get_template_object_name ({ } : ListViewState Nat) ⟨[1], none, false⟩).1
      = none ∧
    dget (ListView.get_context ({ template_object_name := some "thing" } : ListViewState Nat)
        ⟨[1], none, false⟩).1 "thing_list" = some (.items ⟨[1], none, false⟩) ∧
    (ListView.get_context ({ } : ListViewState Nat) ⟨[1], none, false⟩).1
      = [("object_list", .items ⟨[1], none, false⟩)] := by
  refine ⟨?_, ?_, ?_, ?_, ?_⟩
  · exact (C8_template_object_name_context _ _).1 "thing" rfl (by decide)
  · exact ((C8_template_object_name_context _ _).2.1 (Or.inl rfl)).1 ⟨"app", "Thing", "things"⟩ rfl
  · exact ((C8_template_object_name_context _ _).2.1 (Or.inl rfl)).2 rfl
  · exact (((C8_template_object_name_context
      ({ template_object_name := some "thing" } : ListViewState Nat)
      ⟨[1], none, false⟩).2.2.1) "thing_list" rfl).1
  · exact (C8_template_object_name_context ({ } : ListViewState Nat) ⟨[1], none, false⟩).2.2.2 rfl

theorem validate_number_ok (p : PaginatorObj α) (n m : Int)
    (h : p.validate_number n = .ok m) : m = n ∧ 1 ≤ n := by
  unfold PaginatorObj.validate_number at h
  by_cases h1 : n < 1
  · rw [if_pos h1] at h
    exact absurd h (by simp)
  · rw [if_neg h1] at h
    have hn : 1 ≤ n := by omega
    cases hnp : p.num_pages with
    | error e =>
      rw [hnp] at h
      simp at h
    | ok np =>
      rw [hnp] at h
      dsimp only at h
      by_cases h2 : (np : Int) < n
      · rw [if_pos h2] at h
        by_cases h3 : (n == 1 && p.allow_empty_first_page) = true
        · rw [if_pos h3] at h
          injection h with h'
          exact ⟨h'.symm, hn⟩
        · rw [if_neg h3] at h
          simp at h
      · rw [if_neg h2] at h
        injection h with h'
        exact ⟨h'.symm, hn⟩

theorem page_ok_spec (p : PaginatorObj α) (n : Int) (pg : PageObj α)
    (h : p.page n = .ok pg) :
    pg.number = n ∧ pg.paginator = p ∧ 1 ≤ n ∧
    ∃ k, p.per_page = some k ∧
      pg.object_list = p.object_list.slice ((n.toNat - 1) * k)
        (if p.count ≤ (n.toNat - 1) * k + k then p.count else (n.toNat - 1) * k + k) := by
  unfold PaginatorObj.page at h
  cases hv : p.validate_number n with
  | error e =>
    rw [hv] at h
    simp at h
  | ok m =>
    rw [hv] at h
    obtain ⟨hm, hn⟩ := validate_number_ok p n m hv
    subst hm
    cases hk : p.per_page with
    | none =>
      rw [hk] at h
      simp at h
    | some k =>
      rw [hk] at h
      dsimp only at h
      injection h with h'
      refine ⟨by rw [← h'], by rw [← h'], hn, k, rfl, by rw [← h']⟩

theorem paginate_items_ok (st : PaginatedListViewState α) (items : PyItems α)
    (page : Option PageTok) (pag : Option (PaginatorObj α)) (pg : PageObj α)
    (its2 : PyItems α)
    (h : (PaginatedListView.paginate_items st items page).1 = .ok (pag, pg, its2)) :
    pag = some { object_list := items, per_page := st.paginate_by,
                 allow_empty_first_page := st.allow_empty } ∧
    its2 = pg.object_list ∧
    ({ object_list := items, per_page := st.paginate_by,
       allow_empty_first_page := st.allow_empty } : PaginatorObj α).page pg.number
      = .ok pg := by
  dsimp only [PaginatedListView.paginate_items, PaginatedListView.get_paginate_by,
    ListView.get_allow_empty] at h
  split at h
  · simp at h
  · rename_i n hnum
    split at h
    · rename_i pg' hpage
      simp only at h
      injection h with h'
      injection h' with h1 h2
      injection h2 with h2 h3
      subst h1
      subst h2
      subst h3
      obtain ⟨hnumeq, -, -, -⟩ := page_ok_spec _ n pg' hpage
      refine ⟨rfl, rfl, ?_⟩
      rw [hnumeq]
      exact hpage
    · simp at h
    · simp at h

theorem pag_get_context_ok_shape (st : PaginatedListViewState α) (items : PyItems α)
    (ctx : List (String × CtxVal α))
    (h : (PaginatedListView.get_context st items).1 = .ok ctx) :
    ∃ pag pg its2,
      (PaginatedListView.paginate_items st items st.kwargsPage).1 = .ok (pag, pg, its2) ∧
      ctx = dinsert (dinsert (dinsert (ListView.get_context st.toListViewState its2).1
          "paginator" (.pag pag)) "page_obj" (.page pg)) "is_paginated"
          (.bool pag.isSome) := by
  dsimp only [PaginatedListView.get_context] at h
  rw [paginate_items_eta] at h
  cases hv : (PaginatedListView.paginate_items st items st.kwargsPage).1 with
  | error e =>
    rw [hv] at h
    simp at h
  | ok tr =>
    rcases tr with ⟨pag, pg, its2⟩
    rw [hv] at h
    dsimp only at h
    injection h with h'
    exact ⟨pag, pg, its2, rfl, h'.symm⟩

/-- C6: for every `PaginatedListView` request that succeeds, the context
key `'is_paginated'` is `True` and `'paginator'` holds a `Paginator` object:
`paginate_items` unconditionally constructs a `Paginator` (even when
`get_paginate_by` returns `None`), so a successful result's paginator is
never `None` and `'is_paginated'` is never `False`. -/
theorem C6_is_paginated_always_true (st : PaginatedListViewState α) (items : PyItems α) :
    (∀ page pag pg its2,
      (PaginatedListView.paginate_items st items page).1 = .ok (pag, pg, its2) →
      pag = some { object_list := items, per_page := st.paginate_by,
                   allow_empty_first_page := st.allow_empty }) ∧
    (∀ ctx, (PaginatedListView.get_context st items).1 = .ok ctx →
      dget ctx "is_paginated" = some (.bool true) ∧
      dget ctx "paginator"
        = some (.pag (some { object_list := items, per_page := st.paginate_by,
                             allow_empty_first_page := st.allow_empty }))) := by
  constructor
  · intro page pag pg its2 h
    exact (paginate_items_ok st items page pag pg its2 h).1
  · intro ctx h
    obtain ⟨pag, pg, its2, hpi, hctx⟩ := pag_get_context_ok_shape st items ctx h
    obtain ⟨hpag, -, -⟩ := paginate_items_ok st items st.kwargsPage pag pg its2 hpi
    subst hctx
    subst hpag
    constructor
    · rw [dget_dinsert_self]
      rfl
    · rw [dget_dinsert_ne _ _ _ _ (by decide), dget_dinsert_ne _ _ _ _ (by decide),
        dget_dinsert_self]

/-- Witness for C6 on a concrete paginated request. -/
theorem C6_witness :
    dget [("object_list", (.items ⟨[1, 2], none, false⟩ : CtxVal Nat)),
          ("paginator", .pag (some { object_list := ⟨[1, 2, 3], none, false⟩,
                                     per_page := some 2,
                                     allow_empty_first_page := true })),
          ("page_obj", .page ⟨⟨[1, 2], none, false⟩, 1,
                              { object_list := ⟨[1, 2, 3], none, false⟩,
                                per_page := some 2,
                                allow_empty_first_page := true }⟩),
          ("is_paginated", .bool true)] "is_paginated" = some (.bool true) ∧
    dget [("object_list", (.items ⟨[1, 2], none, false⟩ : CtxVal Nat)),
          ("paginator", .pag (some { object_list := ⟨[1, 2, 3], none, false⟩,
                                     per_page := some 2,
                                     allow_empty_first_page := true })),
          ("page_obj", .page ⟨⟨[1, 2], none, false⟩, 1,
                              { object_list := ⟨[1, 2, 3], none, false⟩,
                                per_page := some 2,
                                allow_empty_first_page := true }⟩),
          ("is_paginated", .bool true)] "paginator"
      = some (.pag (some { object_list := ⟨[1, 2, 3], none, false⟩,
                           per_page := some 2,
                           allow_empty_first_page := true })) :=
  (C6_is_paginated_always_true
    ({ items := some ⟨[1, 2, 3], none, false⟩, paginate_by := some 2 }
      : PaginatedListViewState Nat) ⟨[1, 2, 3], none, false⟩).2 _ rfl

theorem lv_context_object_list (st : ListViewState α) (items : PyItems α) :
    dget (ListView.get_context st items).1 "object_list" = some (.items items) := by
  unfold ListView.get_context
  rw [get_template_object_name_eta]
  cases ht : (ListView.get_template_object_name st items).1 with
  | none => rfl
  | some k =>
    dsimp only
    by_cases hk : k = "object_list"
    · subst hk
      rw [dget_dinsert_self]
    · rw [dget_dinsert_ne _ _ _ _ (fun hh => hk hh.symm)]
      rfl

/-- C2: for every `PaginatedListView` with `paginate_by = k` whose requested
page resolves to a valid page number `n`, the context value under
`'object_list'` is `Paginator(items, k, allow_empty_first_page=allow_empty)
.page(n).object_list` — the contiguous slice of the items from index
`(n-1)*k` up to `min(n*k, len(items))` — and the page computation is the one
performed by the framework `Paginator`. -/
theorem C2_paginated_object_list_slice (st : PaginatedListViewState α)
    (items : PyItems α) (k : Nat) (pag : Option (PaginatorObj α)) (pg : PageObj α)
    (its2 : PyItems α) (hk : st.paginate_by = some k)
    (h : (PaginatedListView.paginate_items st items st.kwargsPage).1
      = .ok (pag, pg, its2)) :
    pag = some { object_list := items, per_page := some k,
                 allow_empty_first_page := st.allow_empty } ∧
    its2 = pg.object_list ∧
    ({ object_list := items, per_page := some k,
       allow_empty_first_page := st.allow_empty } : PaginatorObj α).page pg.number
      = .ok pg ∧
    (∃ n : Nat, 1 ≤ n ∧ pg.number = (n : Int) ∧
      pg.object_list.elems
        = (items.elems.drop ((n - 1) * k)).take
            (min (n * k) items.elems.length - (n - 1) * k)) ∧
    (∀ ctx, (PaginatedListView.get_context st items).1 = .ok ctx →
      dget ctx "object_list" = some (.items pg.object_list)) := by
  obtain ⟨hpag, hits, hpage⟩ := paginate_items_ok st items st.kwargsPage pag pg its2 h
  rw [hk] at hpag hpage
  refine ⟨hpag, hits, hpage, ?_, ?_⟩
  · obtain ⟨-, -, hn, k', hk', hslice⟩ := page_ok_spec _ pg.number pg hpage
    obtain rfl : k = k' := by
      simpa using hk'
    refine ⟨pg.number.toNat, by omega, (Int.toNat_of_nonneg (by omega)).symm, ?_⟩
    rw [hslice]
    unfold PyItems.slice PaginatorObj.count
    dsimp only
    have hb : (pg.number.toNat - 1) * k + k = pg.number.toNat * k := by
      have h1 : 1 ≤ pg.number.toNat := by omega
      cases hm : pg.number.toNat with
      | zero => omega
      | succ m => simp [Nat.succ_sub_one, Nat.succ_mul]
    rw [hb]
    congr 1
    by_cases hc : items.elems.length ≤ pg.number.toNat * k
    · rw [if_pos hc, Nat.min_eq_right hc]
    · rw [if_neg hc, Nat.min_eq_left (Nat.le_of_not_le hc)]
  · intro ctx hctx
    obtain ⟨pag', pg', its2', hpi', hshape⟩ := pag_get_context_ok_shape st items ctx hctx
    rw [h] at hpi'
    injection hpi' with h'
    injection h' with h1 h2
    injection h2 with h2 h3
    subst h2
    subst h3
    subst hshape
    rw [dget_dinsert_ne _ _ _ _ (by decide), dget_dinsert_ne _ _ _ _ (by decide),
      dget_dinsert_ne _ _ _ _ (by decide), lv_context_object_list]
    rw [hits]

/-- Witness for C2: page 2 of five items with `paginate_by = 2` is the slice
`[30, 40]`. -/
theorem C2_witness :
    (some ({ object_list := ⟨[10, 20, 30, 40, 50], none, false⟩, per_page := some 2,
             allow_empty_first_page := true } : PaginatorObj Nat)
      = some { object_list := ⟨[10, 20, 30, 40, 50], none, false⟩, per_page := some 2,
               allow_empty_first_page := true }) ∧
    ((⟨[30, 40], none, false⟩ : PyItems Nat)
      = (⟨⟨[30, 40], none, false⟩, 2,
          { object_list := ⟨[10, 20, 30, 40, 50], none, false⟩, per_page := some 2,
            allow_empty_first_page := true }⟩ : PageObj Nat).object_list) ∧
    (({ object_list := ⟨[10, 20, 30, 40, 50], none, false⟩, per_page := some 2,
        allow_empty_first_page := true } : PaginatorObj Nat).page
        (⟨⟨[30, 40], none, false⟩, 2,
          { object_list := ⟨[10, 20, 30, 40, 50], none, false⟩, per_page := some 2,
            allow_empty_first_page := true }⟩ : PageObj Nat).number
      = .ok ⟨⟨[30, 40], none, false⟩, 2,
          { object_list := ⟨[10, 20, 30, 40, 50], none, false⟩, per_page := some 2,
            allow_empty_first_page := true }⟩) ∧
    (∃ n : Nat, 1 ≤ n ∧
      (⟨⟨[30, 40], none, false⟩, 2,
        { object_list := ⟨[10, 20, 30, 40, 50], none, false⟩, per_page := some 2,
          allow_empty_first_page := true }⟩ : PageObj Nat).number = (n : Int) ∧
      (⟨⟨[30, 40], none, false⟩, 2,
        { object_list := ⟨[10, 20, 30, 40, 50], none, false⟩, per_page := some 2,
          allow_empty_first_page := true }⟩ : PageObj Nat).object_list.elems
        = (([10, 20, 30, 40, 50] : List Nat).drop ((n - 1) * 2)).take
            (min (n * 2) ([10, 20, 30, 40, 50] : List Nat).length - (n - 1) * 2)) ∧
    (∀ ctx,
      (PaginatedListView.get_context
        ({ items := some ⟨[10, 20, 30, 40, 50], none, false⟩, paginate_by := some 2,
           kwargsPage := some (.int 2) } : PaginatedListViewState Nat)
        ⟨[10, 20, 30, 40, 50], none, false⟩).1 = .ok ctx →
      dget ctx "object_list"
        = some (.items (⟨⟨[30, 40], none, false⟩, 2,
            { object_list := ⟨[10, 20, 30, 40, 50], none, false⟩, per_page := some 2,
              allow_empty_first_page := true }⟩ : PageObj Nat).object_list)) :=
  C2_paginated_object_list_slice
    ({ items := some ⟨[10, 20, 30, 40, 50], none, false⟩, paginate_by := some 2,
       kwargsPage := some (.int 2) } : PaginatedListViewState Nat)
    ⟨[10, 20, 30, 40, 50], none, false⟩ 2 _ _ _ rfl rfl

theorem viewPaginator_def (st : PaginatedListViewState α) (items : PyItems α) :
    viewPaginator st items
      = { object_list := items, per_page := st.paginate_by,
          allow_empty_first_page := st.allow_empty } := rfl

theorem paginate_items_on_token (st : PaginatedListViewState α) (items : PyItems α)
    (t : PageTok) (ht : t.truthy = true) :
    (PaginatedListView.paginate_items st items (some t)).1 =
      match (match t.toInt with
        | some n => Except.ok n
        | none =>
          if t.isLastStr = true then
            match (viewPaginator st items).num_pages with
            | .ok np => Except.ok (np : Int)
            | .error e => Except.error e
          else
            Except.error
              (.http404 "Page is not last, nor can it be converted to an int.")) with
      | Except.error e => Except.error e
      | Except.ok n =>
        match (viewPaginator st items).page n with
        | .ok pg => Except.ok (some (viewPaginator st items), pg, pg.object_list)
        | .error .invalidPage =>
          Except.error (.http404 ("Invalid page (" ++ toString n ++ ")"))
        | .error e => Except.error e := by
  dsimp only [PaginatedListView.paginate_items, PaginatedListView.get_paginate_by,
    ListView.get_allow_empty, viewPaginator]
  rw [ht]
  repeat' split
  all_goals simp_all

theorem requestPageDefault_eta (st : PaginatedListViewState α) (lst : ListViewState α) :
    PaginatedListView.requestPageDefault { st with toListViewState := lst }
      = PaginatedListView.requestPageDefault st := rfl

theorem paginate_items_some_falsy (st : PaginatedListViewState α) (items : PyItems α)
    (t : PageTok) (ht : t.truthy = false) :
    PaginatedListView.paginate_items st items (some t)
      = PaginatedListView.paginate_items st items none := by
  dsimp only [PaginatedListView.paginate_items, PaginatedListView.get_paginate_by,
    ListView.get_allow_empty]
  rw [ht]
  rfl

theorem paginate_items_none (st : PaginatedListViewState α) (items : PyItems α) :
    (PaginatedListView.paginate_items st items none).1 =
      match (match (PaginatedListView.requestPageDefault st).toInt with
        | some n => Except.ok n
        | none =>
          if (PaginatedListView.requestPageDefault st).isLastStr = true then
            match (viewPaginator st items).num_pages with
            | .ok np => Except.ok (np : Int)
            | .error e => Except.error e
          else
            Except.error
              (.http404 "Page is not last, nor can it be converted to an int.")) with
      | Except.error e => Except.error e
      | Except.ok n =>
        match (viewPaginator st items).page n with
        | .ok pg => Except.ok (some (viewPaginator st items), pg, pg.object_list)
        | .error .invalidPage =>
          Except.error (.http404 ("Invalid page (" ++ toString n ++ ")"))
        | .error e => Except.error e := by
  dsimp only [PaginatedListView.paginate_items, PaginatedListView.get_paginate_by,
    ListView.get_allow_empty, viewPaginator]
  simp only [requestPageDefault_eta]
  repeat' split
  all_goals simp_all

theorem paginate_items_fallback (st : PaginatedListViewState α) (items : PyItems α)
    (page : Option PageTok)
    (h : page = none ∨ ∃ t, page = some t ∧ t.truthy = false) :
    (PaginatedListView.paginate_items st items page).1
      = (PaginatedListView.paginate_items st items
          (some (PaginatedListView.requestPageDefault st))).1 := by
  have hnone : (PaginatedListView.paginate_items st items none).1
      = (PaginatedListView.paginate_items st items
          (some (PaginatedListView.requestPageDefault st))).1 := by
    by_cases hd : (PaginatedListView.requestPageDefault st).truthy = true
    · rw [paginate_items_none, paginate_items_on_token st items _ hd]
    · exact (congrArg Prod.fst (paginate_items_some_falsy st items _
        (Bool.eq_false_iff.mpr hd))).symm
  rcases h with h | ⟨t, h, ht⟩ <;> subst h
  · exact hnone
  · rw [congrArg Prod.fst (paginate_items_some_falsy st items t ht)]
    exact hnone

/-- C3 counterexample: the page token `''` taken from `self.kwargs['page']`
is present, is not convertible to an int and is not `'last'`, so by the claim
`paginate_items` should raise `Http404`; instead the falsy token falls
through (`page or request.GET.get('page', 1)`) to the GET query parameter
`'2'` and pagination succeeds with page 2. -/
theorem C3_counterexample :
    (PageTok.str "").toInt = none ∧
    (PageTok.str "").isLastStr = false ∧
    (PaginatedListView.paginate_items
      ({ items := some ⟨[10, 20, 30], none, false⟩, paginate_by := some 1,
         kwargsPage := some (.str ""), reqGetPage := some "2" }
        : PaginatedListViewState Nat)
      ⟨[10, 20, 30], none, false⟩ (some (.str ""))).1
      = .ok (some { object_list := ⟨[10, 20, 30], none, false⟩, per_page := some 1,
                    allow_empty_first_page := true },
          ⟨⟨[20], none, false⟩, 2,
           { object_list := ⟨[10, 20, 30], none, false⟩, per_page := some 1,
             allow_empty_first_page := true }⟩,
          ⟨[20], none, false⟩) := by
  refine ⟨rfl, rfl, ?_⟩
  rfl

/-- C3 (amended): the page token is taken from `self.kwargs['page']` when
present and truthy; when it is absent or falsy (Python `or`), the token
falls back to the GET query parameter `'page'`, defaulting to the int `1`
when that parameter is absent; the token `'last'` selects page number
`paginator.num_pages`; a truthy token that is neither convertible to an int
nor `'last'` raises `Http404`; and an int page number on which
`paginator.page` raises `InvalidPage` raises `Http404` — in every error case
no paginator/page/items triple is returned. -/
theorem C3_amended_page_token {α : Type} :
    (∀ (st : PaginatedListViewState α) (items : PyItems α) (t : PageTok)
        (q : Option String), t.truthy = true →
      (PaginatedListView.paginate_items st items (some t)).1
        = (PaginatedListView.paginate_items { st with reqGetPage := q } items (some t)).1) ∧
    (∀ (st : PaginatedListViewState α) (items : PyItems α) (page : Option PageTok),
      (page = none ∨ ∃ t, page = some t ∧ t.truthy = false) →
      (PaginatedListView.paginate_items st items page).1
        = (PaginatedListView.paginate_items st items
            (some (PaginatedListView.requestPageDefault st))).1) ∧
    (∀ (st : PaginatedListViewState α) (s : String),
      (st.reqGetPage = some s → PaginatedListView.requestPageDefault st = .str s) ∧
      (st.reqGetPage = none → PaginatedListView.requestPageDefault st = .int 1)) ∧
    (∀ (st : PaginatedListViewState α) (items : PyItems α) (np : Nat) (pg : PageObj α),
      (viewPaginator st items).num_pages = .ok np →
      (viewPaginator st items).page (np : Int) = .ok pg →
      (PaginatedListView.paginate_items st items (some (.str "last"))).1
        = .ok (some (viewPaginator st items), pg, pg.object_list)) ∧
    (∀ (st : PaginatedListViewState α) (items : PyItems α) (np : Nat),
      (viewPaginator st items).num_pages = .ok np →
      (viewPaginator st items).page (np : Int) = .error .invalidPage →
      (PaginatedListView.paginate_items st items (some (.str "last"))).1
        = .error (.http404 ("Invalid page (" ++ toString (np : Int) ++ ")"))) ∧
    (∀ (st : PaginatedListViewState α) (items : PyItems α) (t : PageTok),
      t.truthy = true → t.toInt = none → t.isLastStr = false →
      (PaginatedListView.paginate_items st items (some t)).1
        = .error (.http404 "Page is not last, nor can it be converted to an int.")) ∧
    (∀ (st : PaginatedListViewState α) (items : PyItems α) (t : PageTok) (n : Int),
      t.truthy = true → t.toInt = some n →
      (viewPaginator st items).page n = .error .invalidPage →
      (PaginatedListView.paginate_items st items (some t)).1
        = .error (.http404 ("Invalid page (" ++ toString n ++ ")"))) := by
  refine ⟨?_, ?_, ?_, ?_, ?_, ?_, ?_⟩
  · intro st items t q ht
    rw [paginate_items_on_token st items t ht,
      paginate_items_on_token { st with reqGetPage := q } items t ht]
    rfl
  · intro st items page h
    exact paginate_items_fallback st items page h
  · intro st s
    constructor
    · intro h
      unfold PaginatedListView.requestPageDefault
      rw [h]
    · intro h
      unfold PaginatedListView.requestPageDefault
      rw [h]
  · intro st items np pg hnp hpg
    rw [paginate_items_on_token st items (.str "last") rfl,
      show (PageTok.str "last").toInt = none from rfl,
      show (PageTok.str "last").isLastStr = true from rfl]
    simp [hnp, hpg]
  · intro st items np hnp hpg
    rw [paginate_items_on_token st items (.str "last") rfl,
      show (PageTok.str "last").toInt = none from rfl,
      show (PageTok.str "last").isLastStr = true from rfl]
    simp [hnp, hpg]
  · intro st items t ht hti hlast
    rw [paginate_items_on_token st items t ht, hti, hlast]
    rfl
  · intro st items t n ht hti hpg
    rw [paginate_items_on_token st items t ht, hti]
    simp [hpg]

/-- Witness for the amended C3: each branch of the token resolution at
concrete inputs. -/
theorem C3_amended_witness :
    ((PaginatedListView.paginate_items
        ({ items := some ⟨[1, 2, 3], none, false⟩, paginate_by := some 2,
           reqGetPage := some "9" } : PaginatedListViewState Nat)
        ⟨[1, 2, 3], none, false⟩ (some (.int 2))).1
      = (PaginatedListView.paginate_items
          { ({ items := some ⟨[1, 2, 3], none, false⟩, paginate_by := some 2,
               reqGetPage := some "9" } : PaginatedListViewState Nat) with
            reqGetPage := none }
          ⟨[1, 2, 3], none, false⟩ (some (.int 2))).1) ∧
    ((PaginatedListView.paginate_items
        ({ items := some ⟨[1, 2, 3], none, false⟩, paginate_by := some 2,
           reqGetPage := some "9" } : PaginatedListViewState Nat)
        ⟨[1, 2, 3], none, false⟩ none).1
      = (PaginatedListView.paginate_items
          ({ items := some ⟨[1, 2, 3], none, false⟩, paginate_by := some 2,
             reqGetPage := some "9" } : PaginatedListViewState Nat)
          ⟨[1, 2, 3], none, false⟩
          (some (PaginatedListView.requestPageDefault
            ({ items := some ⟨[1, 2, 3], none, false⟩, paginate_by := some 2,
               reqGetPage := some "9" } : PaginatedListViewState Nat)))).1) ∧
    (PaginatedListView.requestPageDefault
      ({ items := some ⟨[1, 2, 3], none, false⟩, paginate_by := some 2,
         reqGetPage := some "9" } : PaginatedListViewState Nat) = .str "9") ∧
    ((PaginatedListView.paginate_items
        ({ items := some ⟨[1, 2, 3], none, false⟩, paginate_by := some 2,
           reqGetPage := some "9" } : PaginatedListViewState Nat)
        ⟨[1, 2, 3], none, false⟩ (some (.str "last"))).1
      = .ok (some (viewPaginator
            ({ items := some ⟨[1, 2, 3], none, false⟩, paginate_by := some 2,
               reqGetPage := some "9" } : PaginatedListViewState Nat)
            ⟨[1, 2, 3], none, false⟩),
          ⟨⟨[3], none, false⟩, 2,
           viewPaginator
            ({ items := some ⟨[1, 2, 3], none, false⟩, paginate_by := some 2,
               reqGetPage := some "9" } : PaginatedListViewState Nat)
            ⟨[1, 2, 3], none, false⟩⟩,
          (⟨⟨[3], none, false⟩, 2,
            viewPaginator
             ({ items := some ⟨[1, 2, 3], none, false⟩, paginate_by := some 2,
                reqGetPage := some "9" } : PaginatedListViewState Nat)
             ⟨[1, 2, 3], none, false⟩⟩ : PageObj Nat).object_list)) ∧
    ((PaginatedListView.paginate_items
        ({ items := some ⟨([] : List Nat), none, false⟩, allow_empty := false,
           paginate_by := some 2 } : PaginatedListViewState Nat)
        ⟨[], none, false⟩ (some (.str "last"))).1
      = .error (.http404 ("Invalid page (" ++ toString ((0 : Nat) : Int) ++ ")"))) ∧
    ((PaginatedListView.paginate_items
        ({ items := some ⟨[1, 2, 3], none, false⟩, paginate_by := some 2,
           reqGetPage := some "9" } : PaginatedListViewState Nat)
        ⟨[1, 2, 3], none, false⟩ (some (.str "abc"))).1
      = .error (.http404 "Page is not last, nor can it be converted to an int.")) ∧
    ((PaginatedListView.paginate_items
        ({ items := some ⟨[1, 2, 3], none, false⟩, paginate_by := some 2,
           reqGetPage := some "9" } : PaginatedListViewState Nat)
        ⟨[1, 2, 3], none, false⟩ (some (.int 7))).1
      = .error (.http404 ("Invalid page (" ++ toString (7 : Int) ++ ")"))) :=
  ⟨C3_amended_page_token.1 _ _ (.int 2) none rfl,
   C3_amended_page_token.2.1 _ _ none (Or.inl rfl),
   (C3_amended_page_token.2.2.1 _ "9").1 rfl,
   C3_amended_page_token.2.2.2.1 _ _ 2 _ rfl rfl,
   C3_amended_page_token.2.2.2.2.1 _ _ 0 rfl rfl,
   C3_amended_page_token.2.2.2.2.2.1 _ _ (.str "abc") rfl rfl rfl,
   C3_amended_page_token.2.2.2.2.2.2 _ _ (.int 7) 7 rfl rfl rfl⟩

/-- C9 counterexample: with `template_object_name = None` and a model whose
`verbose_name_plural` is `"paginator"`, the `ListView` context over the page
slice binds `'paginator'` to the slice, and `context.update` then overwrites
that binding with the `Paginator` object: the paginated context is not the
`ListView` context extended with three additional keys (it has 4 entries,
not 2 + 3, and loses a `ListView` binding). -/
theorem C9_counterexample :
    (ListView.get_context
      ({ items := some ⟨[1, 2, 3], some ⟨"app", "Thing", "paginator"⟩, true⟩ }
        : ListViewState Nat)
      ⟨[1, 2], some ⟨"app", "Thing", "paginator"⟩, true⟩).1
      = [("object_list", .items ⟨[1, 2], some ⟨"app", "Thing", "paginator"⟩, true⟩),
         ("paginator", .items ⟨[1, 2], some ⟨"app", "Thing", "paginator"⟩, true⟩)] ∧
    (PaginatedListView.get_context
      ({ items := some ⟨[1, 2, 3], some ⟨"app", "Thing", "paginator"⟩, true⟩,
         paginate_by := some 2, kwargsPage := some (.int 1) }
        : PaginatedListViewState Nat)
      ⟨[1, 2, 3], some ⟨"app", "Thing", "paginator"⟩, true⟩).1
      = .ok [("object_list", .items ⟨[1, 2], some ⟨"app", "Thing", "paginator"⟩, true⟩),
             ("paginator", .pag (some ⟨⟨[1, 2, 3], some ⟨"app", "Thing", "paginator"⟩,
                true⟩, some 2, true⟩)),
             ("page_obj", .page ⟨⟨[1, 2], some ⟨"app", "Thing", "paginator"⟩, true⟩, 1,
               ⟨⟨[1, 2, 3], some ⟨"app", "Thing", "paginator"⟩, true⟩, some 2, true⟩⟩),
             ("is_paginated", .bool true)] ∧
    dget [("object_list", (.items ⟨[1, 2], some ⟨"app", "Thing", "paginator"⟩, true⟩
           : CtxVal Nat)),
          ("paginator", .items ⟨[1, 2], some ⟨"app", "Thing", "paginator"⟩, true⟩)]
      "paginator"
      = some (.items ⟨[1, 2], some ⟨"app", "Thing", "paginator"⟩, true⟩) ∧
    dget [("object_list", (.items ⟨[1, 2], some ⟨"app", "Thing", "paginator"⟩, true⟩
           : CtxVal Nat)),
          ("paginator", .pag (some ⟨⟨[1, 2, 3], some ⟨"app", "Thing", "paginator"⟩,
            true⟩, some 2, true⟩)),
          ("page_obj", .page ⟨⟨[1, 2], some ⟨"app", "Thing", "paginator"⟩, true⟩, 1,
            ⟨⟨[1, 2, 3], some ⟨"app", "Thing", "paginator"⟩, true⟩, some 2, true⟩⟩),
          ("is_paginated", .bool true)] "paginator"
      ≠ some (.items ⟨[1, 2], some ⟨"app", "Thing", "paginator"⟩, true⟩) ∧
    ([("object_list", (.items ⟨[1, 2], some ⟨"app", "Thing", "paginator"⟩, true⟩
         : CtxVal Nat)),
      ("paginator", .pag (some ⟨⟨[1, 2, 3], some ⟨"app", "Thing", "paginator"⟩,
        true⟩, some 2, true⟩)),
      ("page_obj", .page ⟨⟨[1, 2], some ⟨"app", "Thing", "paginator"⟩, true⟩, 1,
        ⟨⟨[1, 2, 3], some ⟨"app", "Thing", "paginator"⟩, true⟩, some 2, true⟩⟩),
      ("is_paginated", .bool true)] : List (String × CtxVal Nat)).length
      ≠ [("object_list", (.items ⟨[1, 2], some ⟨"app", "Thing", "paginator"⟩, true⟩
            : CtxVal Nat)),
         ("paginator", .items ⟨[1, 2], some ⟨"app", "Thing", "paginator"⟩, true⟩)].length
          + 3 :=
  ⟨rfl, rfl, rfl, by decide, by decide⟩

theorem lv_context_shape (st : ListViewState α) (items : PyItems α) :
    (ListView.get_context st items).1 = [("object_list", .items items)] ∨
    ∃ kn, (ListView.get_template_object_name st items).1 = some kn ∧
      ((kn = "object_list" ∧
          (ListView.get_context st items).1 = [("object_list", .items items)]) ∨
       (kn ≠ "object_list" ∧
          (ListView.get_context st items).1
            = [("object_list", .items items), (kn, .items items)])) := by
  unfold ListView.get_context
  rw [get_template_object_name_eta]
  cases ht : (ListView.get_template_object_name st items).1 with
  | none => exact Or.inl rfl
  | some kn =>
    refine Or.inr ⟨kn, rfl, ?_⟩
    by_cases hk : kn = "object_list"
    · subst hk
      exact Or.inl ⟨rfl, rfl⟩
    · refine Or.inr ⟨hk, ?_⟩
      dsimp only
      unfold dinsert
      rw [if_neg (by
        simp only [List.any_cons, List.any_nil, Bool.or_false, decide_eq_true_eq]
        exact fun hh => hk hh.symm)]
      rfl

/-- C9 (amended): for every `PaginatedListView` request that succeeds, the
context equals `ListView.get_context` applied to the current page's object
list, dict-updated (replacing any same-named entry) with the three keys
`'paginator'`, `'page_obj'` and `'is_paginated'`; whenever the `ListView`
object-name key is none of those three, the update adds exactly three new
entries at the end and every `ListView` entry is preserved. -/
theorem C9_amended_context_update (st : PaginatedListViewState α) (items : PyItems α)
    (ctx : List (String × CtxVal α))
    (h : (PaginatedListView.get_context st items).1 = .ok ctx) :
    ∃ pag pg,
      (PaginatedListView.paginate_items st items st.kwargsPage).1
        = .ok (pag, pg, pg.object_list) ∧
      ctx = dinsert (dinsert (dinsert
          (ListView.get_context st.toListViewState pg.object_list).1
          "paginator" (.pag pag)) "page_obj" (.page pg)) "is_paginated"
          (.bool pag.isSome) ∧
      ((∀ kn, (ListView.get_template_object_name st.toListViewState
            pg.object_list).1 = some kn →
          kn ≠ "paginator" ∧ kn ≠ "page_obj" ∧ kn ≠ "is_paginated") →
        ctx = (ListView.get_context st.toListViewState pg.object_list).1
            ++ [("paginator", .pag pag), ("page_obj", .page pg),
                ("is_paginated", .bool pag.isSome)] ∧
        ctx.length
          = (ListView.get_context st.toListViewState pg.object_list).1.length + 3) := by
  obtain ⟨pag, pg, its2, hpi, hctx⟩ := pag_get_context_ok_shape st items ctx h
  obtain ⟨-, hits, -⟩ := paginate_items_ok st items st.kwargsPage pag pg its2 hpi
  subst hits
  refine ⟨pag, pg, hpi, hctx, ?_⟩
  intro hcond
  have hall : ∀ p ∈ (ListView.get_context st.toListViewState pg.object_list).1,
      p.1 ≠ "paginator" ∧ p.1 ≠ "page_obj" ∧ p.1 ≠ "is_paginated" := by
    rcases lv_context_shape st.toListViewState pg.object_list with hs | ⟨kn, hkn, hsh⟩
    · rw [hs]
      intro p hp
      rcases List.mem_singleton.mp hp with rfl
      exact ⟨(by decide : ("object_list" : String) ≠ "paginator"),
        (by decide : ("object_list" : String) ≠ "page_obj"),
        (by decide : ("object_list" : String) ≠ "is_paginated")⟩
    · rcases hsh with ⟨hk, hs⟩ | ⟨hk, hs⟩
      · rw [hs]
        intro p hp
        rcases List.mem_singleton.mp hp with rfl
        exact ⟨(by decide : ("object_list" : String) ≠ "paginator"),
          (by decide : ("object_list" : String) ≠ "page_obj"),
          (by decide : ("object_list" : String) ≠ "is_paginated")⟩
      · rw [hs]
        intro p hp
        rcases List.mem_cons.mp hp with rfl | hp2
        · exact ⟨(by decide : ("object_list" : String) ≠ "paginator"),
            (by decide : ("object_list" : String) ≠ "page_obj"),
            (by decide : ("object_list" : String) ≠ "is_paginated")⟩
        · rcases List.mem_singleton.mp hp2 with rfl
          exact hcond kn hkn
  have h1 : dinsert (ListView.get_context st.toListViewState pg.object_list).1
      "paginator" (.pag pag)
      = (ListView.get_context st.toListViewState pg.object_list).1
          ++ [("paginator", .pag pag)] :=
    dinsert_append_of_all_ne _ _ _ (List.all_eq_true.mpr
      (fun p hp => decide_eq_true (hall p hp).1))
  have h2 : dinsert ((ListView.get_context st.toListViewState pg.object_list).1
        ++ [("paginator", .pag pag)]) "page_obj" (.page pg)
      = ((ListView.get_context st.toListViewState pg.object_list).1
          ++ [("paginator", .pag pag)]) ++ [("page_obj", .page pg)] := by
    refine dinsert_append_of_all_ne _ _ _ (List.all_eq_true.mpr (fun p hp => ?_))
    rcases List.mem_append.mp hp with hp2 | hp2
    · exact decide_eq_true (hall p hp2).2.1
    · rcases List.mem_singleton.mp hp2 with rfl
      exact decide_eq_true (by decide : ("paginator" : String) ≠ "page_obj")
  have h3 : dinsert (((ListView.get_context st.toListViewState pg.object_list).1
        ++ [("paginator", .pag pag)]) ++ [("page_obj", .page pg)]) "is_paginated"
        (.bool pag.isSome)
      = (((ListView.get_context st.toListViewState pg.object_list).1
          ++ [("paginator", .pag pag)]) ++ [("page_obj", .page pg)])
          ++ [("is_paginated", .bool pag.isSome)] := by
    refine dinsert_append_of_all_ne _ _ _ (List.all_eq_true.mpr (fun p hp => ?_))
    rcases List.mem_append.mp hp with hp2 | hp2
    · rcases List.mem_append.mp hp2 with hp3 | hp3
      · exact decide_eq_true (hall p hp3).2.2
      · rcases List.mem_singleton.mp hp3 with rfl
        exact decide_eq_true (by decide : ("paginator" : String) ≠ "is_paginated")
    · rcases List.mem_singleton.mp hp2 with rfl
      exact decide_eq_true (by decide : ("page_obj" : String) ≠ "is_paginated")
  subst hctx
  rw [h1, h2, h3]
  constructor
  · simp [List.append_assoc]
  · simp

/-- Witness for the amended C9 on a concrete paginated request. -/
theorem C9_amended_witness :
    ∃ (pag : Option (PaginatorObj Nat)) (pg : PageObj Nat),
      (PaginatedListView.paginate_items
        ({ items := some ⟨[1, 2, 3], none, false⟩, paginate_by := some 2,
           kwargsPage := some (.int 1) } : PaginatedListViewState Nat)
        ⟨[1, 2, 3], none, false⟩ (some (.int 1))).1
        = .ok (pag, pg, pg.object_list) ∧
      [("object_list", (.items ⟨[1, 2], none, false⟩ : CtxVal Nat)),
       ("paginator", .pag (some ⟨⟨[1, 2, 3], none, false⟩, some 2, true⟩)),
       ("page_obj", .page ⟨⟨[1, 2], none, false⟩, 1,
         ⟨⟨[1, 2, 3], none, false⟩, some 2, true⟩⟩),
       ("is_paginated", .bool true)]
        = dinsert (dinsert (dinsert
            (ListView.get_context
              ({ items := some ⟨[1, 2, 3], none, false⟩ } : ListViewState Nat)
              pg.object_list).1
            "paginator" (.pag pag)) "page_obj" (.page pg)) "is_paginated"
            (.bool pag.isSome) ∧
      ((∀ kn, (ListView.get_template_object_name
            ({ items := some ⟨[1, 2, 3], none, false⟩ } : ListViewState Nat)
            pg.object_list).1 = some kn →
          kn ≠ "paginator" ∧ kn ≠ "page_obj" ∧ kn ≠ "is_paginated") →
        [("object_list", (.items ⟨[1, 2], none, false⟩ : CtxVal Nat)),
         ("paginator", .pag (some ⟨⟨[1, 2, 3], none, false⟩, some 2, true⟩)),
         ("page_obj", .page ⟨⟨[1, 2], none, false⟩, 1,
           ⟨⟨[1, 2, 3], none, false⟩, some 2, true⟩⟩),
         ("is_paginated", .bool true)]
          = (ListView.get_context
              ({ items := some ⟨[1, 2, 3], none, false⟩ } : ListViewState Nat)
              pg.object_list).1
            ++ [("paginator", .pag pag), ("page_obj", .page pg),
                ("is_paginated", .bool pag.isSome)] ∧
        ([("object_list", (.items ⟨[1, 2], none, false⟩ : CtxVal Nat)),
          ("paginator", .pag (some ⟨⟨[1, 2, 3], none, false⟩, some 2, true⟩)),
          ("page_obj", .page ⟨⟨[1, 2], none, false⟩, 1,
            ⟨⟨[1, 2, 3], none, false⟩, some 2, true⟩⟩),
          ("is_paginated", .bool true)] : List (String × CtxVal Nat)).length
          = (ListView.get_context
              ({ items := some ⟨[1, 2, 3], none, false⟩ } : ListViewState Nat)
              pg.object_list).1.length + 3) :=
  C9_amended_context_update
    ({ items := some ⟨[1, 2, 3], none, false⟩, paginate_by := some 2,
       kwargsPage := some (.int 1) } : PaginatedListViewState Nat)
    ⟨[1, 2, 3], none, false⟩ _ rfl
